import Mathlib

/-!
Shallow embedding of the deilabs-bot presence-automation client
(`src/deilabs_bot/client.py`, `src/deilabs_bot/bot.py`).

A loaded portal page is modelled as a snapshot of its URL and HTML
content together with three oracles describing which DOM selectors are
usable on it (`queryOk` for `query_selector` hits, `selectOk` for a
successful `select_option`, `clickOk` for a successful `click`).
Operations are modelled as pure functions from such snapshots to the
result message plus a trace of observable effects (session-blob reads
and writes, selector actions, debug snapshots, log calls).
-/

/-- Python `needle in hay` on explicit character lists: `hay` starts with `needle`. -/
def listStartsWith : List Char → List Char → Bool
  | _, [] => true
  | [], _ :: _ => false
  | h :: hs, n :: ns => h == n && listStartsWith hs ns

/-- Python substring containment `needle in hay` over character lists. -/
def listContainsSub : List Char → List Char → Bool
  | [], needle => listStartsWith [] needle
  | h :: t, needle => listStartsWith (h :: t) needle || listContainsSub t needle

/-- Python `needle in hay` for strings. -/
def strContainsSub (hay needle : String) : Bool :=
  listContainsSub hay.data needle.data

/-- Python `str.lower()` (ASCII, which covers every string the client uses). -/
def lowerStr (s : String) : String :=
  String.mk (s.data.map Char.toLower)

/-- Snapshot of a loaded portal page: URL, HTML content, and oracles for
which selectors `query_selector` finds (`queryOk`), which lab selects a
`select_option` call succeeds on (`selectOk`), and which selectors a
`click` call succeeds on (`clickOk`). -/
structure Page where
  url : String
  html : String
  queryOk : String → Bool := fun _ => false
  selectOk : String → Bool := fun _ => false
  clickOk : String → Bool := fun _ => false

/-- `DeilabsConfig` from `config.py`. -/
structure DeilabsConfig where
  user_id : String
  lab_name : String := "DEI/A | 230 DEI/A"
  debug : Bool := false

/-- `DeilabsConfig.storage_state_path`: per-user storage-state file. -/
def storage_state_path (cfg : DeilabsConfig) : String :=
  "auth_" ++ cfg.user_id ++ ".json"

/-- `LAB_SELECTORS` from `selectors.py`. -/
def LAB_SELECTORS : List String :=
  ["select#lab", "select[name=\x27lab\x27]", "select"]

/-- `ENTER_BUTTON_SELECTORS` from `selectors.py`. -/
def ENTER_BUTTON_SELECTORS : List String :=
  ["button:has-text(\x27Enter\x27)", "input[type=submit][value=\x27Enter\x27]",
   "button.btn-primary", "button[type=\x27submit\x27]"]

/-- `EXIT_BUTTON_SELECTORS` from `selectors.py`. -/
def EXIT_BUTTON_SELECTORS : List String :=
  ["button:has-text(\x27Exit from lab\x27)", "input[type=submit][value^=\x27Exit from lab\x27]"]

/-- `DeilabsClient._session_expired_message`. -/
def _session_expired_message (cfg : DeilabsConfig) : String :=
  "Session expired: please login again with `deilabs login --user-id " ++ cfg.user_id ++
  "`.\nIf you use the Telegram bot, upload the refreshed `auth_" ++ cfg.user_id ++ ".json` file."

/-- `DeilabsClient._is_session_expired`: URL check first, then HTML banner phrases. -/
def _is_session_expired (p : Page) : Bool :=
  let url := lowerStr p.url
  if strContainsSub url "login" || strContainsSub url "shibboleth" then true
  else
    let html := lowerStr p.html
    strContainsSub html "session expired" || strContainsSub html "session seems to have expired"

/-- `DeilabsClient._is_inside_lab`. -/
def _is_inside_lab (p : Page) : Bool :=
  strContainsSub p.html "You have entered the lab" || strContainsSub p.html "Exit from lab"

/-- `DeilabsClient._are_labs_closed`. -/
def _are_labs_closed (p : Page) : Bool :=
  strContainsSub p.html "Laboratories close" ||
  strContainsSub p.html "Laboratories are closed at this time"

/-- Observable effects of a client operation: session-blob reads/writes,
selector actions, debug snapshots, backoff sleeps, and log calls. -/
inductive Effect where
  | readSession (path : String)
  | writeSession (path : String)
  | selectLab (sel : String)
  | clickEnter (sel : String)
  | clickExit (sel : String)
  | saveState (tag : String)
  | sleep (ms : Nat)
  | log (event : String) (message : String)
  deriving Repr, DecidableEq

/-- Result of one client operation: the returned message, the `success`
flag of the branch's final log call, and the effect trace. -/
structure OpResult where
  msg : String
  success : Option Bool
  effects : List Effect
  deriving Repr, DecidableEq

/-- The try-each-selector dispatch both click loops and the select loop
implement: candidates are consulted in order, first usable one wins. -/
def find_first_usable (catalog : List String) (usable : String → Bool) : Option String :=
  catalog.find? usable

/-- `DeilabsClient._enter_lab`: select the lab (skipping selectors that are
absent or whose `select_option` raises), click Enter (skipping selectors
whose `click` raises), then re-check on the post-action page `post`.
Returns the message and the effect trace. -/
def _enter_lab (cfg : DeilabsConfig) (p post : Page) : String × List Effect :=
  match find_first_usable LAB_SELECTORS (fun s => p.queryOk s && p.selectOk s) with
  | none =>
      ("Could not find lab select element for \x27" ++ cfg.lab_name ++ "\x27.",
       [Effect.saveState "no_select"])
  | some sel =>
      let selEffs := [Effect.selectLab sel,
        Effect.log "select_lab"
          ("Selected lab \x27" ++ cfg.lab_name ++ "\x27 via selector " ++ sel)]
      match find_first_usable ENTER_BUTTON_SELECTORS p.clickOk with
      | none =>
          ("Could not click Enter button.", selEffs ++ [Effect.saveState "no_enter_button"])
      | some bsel =>
          let clickEffs := [Effect.clickEnter bsel,
            Effect.log "click_enter" ("Clicked Enter via selector " ++ bsel)]
          if _is_inside_lab post then
            ("Presence logged successfully for lab: " ++ cfg.lab_name, selEffs ++ clickEffs)
          else
            ("Tried to log presence, but could not confirm success.",
             selEffs ++ clickEffs ++ [Effect.saveState "enter_uncertain"])

/-- `DeilabsClient.ensure_presence`, modelled after navigation has delivered
the loaded page `p`; `post` is the page as observed after the enter click
and the bounded action wait. The navigation/readiness waiting is modelled
separately (`open_lab_page_from`, `_wait_until`); it performs no selector
action and no session write. -/
def ensure_presence (cfg : DeilabsConfig) (p post : Page) : OpResult :=
  let base : List Effect :=
    [Effect.log "ensure_presence_start" "Ensuring lab presence (headless)...",
     Effect.readSession (storage_state_path cfg),
     Effect.log "page_loaded" "laboratory_in_outs page opened."] ++
    (if cfg.debug then [Effect.saveState "before"] else [])
  let dbgAfter : List Effect := if cfg.debug then [Effect.saveState "after"] else []
  if _is_session_expired p then
    let msg := _session_expired_message cfg
    ⟨msg, some false, base ++ [Effect.log "session_expired" msg]⟩
  else if _are_labs_closed p then
    let msg := "Laboratories are currently closed. Presence cannot be logged at this time."
    ⟨msg, some false, base ++ [Effect.log "labs_closed" msg]⟩
  else if _is_inside_lab p then
    let msg := "You are already inside the lab. Nothing to do."
    ⟨msg, some true, base ++ [Effect.log "already_inside" msg] ++ dbgAfter⟩
  else
    let r := _enter_lab cfg p post
    ⟨r.1, some (strContainsSub (lowerStr r.1) "successfully"),
     base ++ r.2 ++ [Effect.log "enter_lab" r.1] ++ dbgAfter⟩

/-- `DeilabsClient.leave_lab`, modelled after navigation has delivered the
loaded page `p`; `post` is the page as observed after the exit click and
the bounded action wait. -/
def leave_lab (cfg : DeilabsConfig) (p post : Page) : OpResult :=
  let base : List Effect :=
    [Effect.log "leave_start" "Trying to leave lab...",
     Effect.readSession (storage_state_path cfg)]
  if _is_session_expired p then
    let msg := _session_expired_message cfg
    ⟨msg, some false, base ++ [Effect.log "leave_session_expired" msg]⟩
  else if !(_is_inside_lab p) then
    let msg :=
      if _are_labs_closed p then
        "You are not in any lab and laboratories are currently closed."
      else "You are not in any lab."
    ⟨msg, some true, base ++ [Effect.log "leave_not_inside" msg]⟩
  else
    match find_first_usable EXIT_BUTTON_SELECTORS p.clickOk with
    | none =>
        let msg := "Could not find Exit button."
        ⟨msg, some false,
         base ++ [Effect.saveState "no_exit_button", Effect.log "leave_no_button" msg]⟩
    | some sel =>
        let clickEffs := [Effect.clickExit sel,
          Effect.log "click_exit" ("Clicked Exit via selector " ++ sel)]
        if _is_inside_lab post then
          let msg := "Tried to leave lab, but status is uncertain (still appears inside)."
          ⟨msg, some false,
           base ++ clickEffs ++ [Effect.saveState "exit_uncertain", Effect.log "leave_result" msg]⟩
        else
          let msg := "You have exited the lab."
          ⟨msg, some true, base ++ clickEffs ++ [Effect.log "leave_result" msg]⟩

/-- `DeilabsClient.get_status`, modelled after navigation has delivered the
loaded page `p`: pure classification, no selector action. -/
def get_status (cfg : DeilabsConfig) (p : Page) : OpResult :=
  let base : List Effect :=
    [Effect.log "status_start" "Checking lab status...",
     Effect.readSession (storage_state_path cfg)]
  if _is_session_expired p then
    let msg := _session_expired_message cfg
    ⟨msg, some false, base ++ [Effect.log "status_session_expired" msg]⟩
  else if _are_labs_closed p then
    let msg := "Laboratories are currently closed."
    ⟨msg, some true, base ++ [Effect.log "status_labs_closed" msg]⟩
  else
    let msg :=
      if _is_inside_lab p then "You are already inside the lab." else "You are not in any lab."
    ⟨msg, some true, base ++ [Effect.log "status_result" msg]⟩

/-- `DeilabsClient.interactive_login`: fails fast without a display;
otherwise opens a visible browser, blocks on human confirmation, and then
saves the storage state exactly once to `storage_state_path`. -/
def interactive_login (cfg : DeilabsConfig) (displayAvailable : Bool) :
    Except String (List Effect) :=
  if !displayAvailable then
    Except.error
      ("No DISPLAY found. Run `cli.py login` from a graphical session on the machine, " ++
       "or via `ssh -X`, or perform login on another machine and copy the corresponding " ++
       "auth_<user_id>.json file.")
  else
    Except.ok
      [Effect.log "interactive_login_start" "Starting interactive login...",
       Effect.log "interactive_login" "Browser opened, please complete UniPD login.",
       Effect.writeSession (storage_state_path cfg),
       Effect.log "interactive_login_done"
         ("Session saved to " ++ storage_state_path cfg)]

/-- Outcome of one `page.goto` attempt: success, or a raised Playwright
error with a timeout flag (`PlaywrightTimeoutError`) and its message. -/
inductive NavOutcome where
  | ok
  | err (timeout : Bool) (msg : String)
  deriving Repr, DecidableEq

/-- The fixed substring markers of `_is_retryable_navigation_error`. -/
def retry_markers : List String :=
  ["ns_error_net_interrupt", "net::err_", "timed out", "timeout",
   "temporarily unavailable", "connection reset", "connection aborted", "network changed"]

/-- `DeilabsClient._is_retryable_navigation_error`: timeout errors and
errors whose lowered message contains a retry marker are transient. -/
def _is_retryable_navigation_error (timeout : Bool) (msg : String) : Bool :=
  timeout || retry_markers.any (fun m => strContainsSub (lowerStr msg) m)

/-- Result of the `_open_lab_page` retry loop: the raised error or success,
the number of `goto` attempts performed, and the backoff sleeps (ms). -/
structure NavRun where
  result : Except (Bool × String) Unit
  attemptsUsed : Nat
  sleeps : List Nat
  deriving Repr

/-- The retry loop of `DeilabsClient._open_lab_page`, started at attempt
number `attempt` out of `attempts` total; `gotos n` is the outcome of the
`n`-th `goto` call. A transient error before the last attempt sleeps
`delayMs * attempt` and retries; anything else is raised. -/
def open_lab_page_from (delayMs : Nat) (gotos : Nat → NavOutcome) (attempts attempt : Nat) :
    NavRun :=
  match gotos attempt with
  | NavOutcome.ok => ⟨Except.ok (), attempt, []⟩
  | NavOutcome.err tmo msg =>
      if h : _is_retryable_navigation_error tmo msg = true ∧ attempt < attempts then
        let rest := open_lab_page_from delayMs gotos attempts (attempt + 1)
        ⟨rest.result, rest.attemptsUsed, delayMs * attempt :: rest.sleeps⟩
      else ⟨Except.error (tmo, msg), attempt, []⟩
termination_by attempts - attempt
decreasing_by omega

/-- `DeilabsClient._open_lab_page`: `nav_retries` extra attempts after the
first, i.e. `nav_retries + 1` attempts total, starting at attempt 1. -/
def _open_lab_page (nav_retries delayMs : Nat) (gotos : Nat → NavOutcome) : NavRun :=
  open_lab_page_from delayMs gotos (nav_retries + 1) 1

/-- `DeilabsClient._wait_until`, over discrete time: `pred t` is the
predicate's value at time `t` (`none` models a raised exception, treated
as false). Polls every `pollMs` until the deadline, then performs the
final check. Returns the result and the number of poll sleeps. The poll
interval is assumed positive (default 250 ms). -/
def _wait_until (pollMs : Nat) (hp : 0 < pollMs) (pred : Nat → Option Bool)
    (deadline t : Nat) : Bool × Nat :=
  if h : t < deadline then
    if (pred t).getD false then (true, 0)
    else
      let r := _wait_until pollMs hp pred deadline (t + pollMs)
      (r.1, r.2 + 1)
  else
    ((pred t).getD false, 0)
termination_by deadline - t
decreasing_by omega

/-- The `ready` predicate of `DeilabsClient._wait_for_page_ready`, over a
time-indexed view `pages` of the live page. -/
def ready_pred (pages : Nat → Page) (t : Nat) : Option Bool :=
  some (_is_session_expired (pages t) || _are_labs_closed (pages t) ||
    _is_inside_lab (pages t) || LAB_SELECTORS.any (fun s => (pages t).queryOk s))

/-- `DeilabsClient._wait_for_page_ready`: runs `_wait_until` with the ready
predicate and the page-wait timeout; the code discards the boolean and
proceeds either way, so the model exposes the pair for inspection. -/
def _wait_for_page_ready (pollMs : Nat) (hp : 0 < pollMs) (pageWaitMs : Nat)
    (pages : Nat → Page) : Bool × Nat :=
  _wait_until pollMs hp (ready_pred pages) pageWaitMs 0

/-- Failure markers of `bot._infer_success`. -/
def failure_markers : List String :=
  ["session expired", "could not", "error", "uncertain"]

/-- Success markers of `bot._infer_success`. -/
def success_markers : List String :=
  ["presence logged successfully", "you are already inside",
   "you are not in any lab", "you have exited the lab"]

/-- `bot._infer_success`: failure markers win over success markers;
neither gives `none`. -/
def _infer_success (status_text : String) : Option Bool :=
  let lowered := lowerStr status_text
  if failure_markers.any (fun m => strContainsSub lowered m) then some false
  else if success_markers.any (fun m => strContainsSub lowered m) then some true
  else none

/-- Is this effect a session-blob write? -/
def isWriteEff : Effect → Bool
  | Effect.writeSession _ => true
  | _ => false

/-- Is this effect a session-blob read? -/
def isReadEff : Effect → Bool
  | Effect.readSession _ => true
  | _ => false

/-- Is this effect a selector action (lab select, enter click, exit click)? -/
def isActionEff : Effect → Bool
  | Effect.selectLab _ => true
  | Effect.clickEnter _ => true
  | Effect.clickExit _ => true
  | _ => false

/-- Counts the session-blob writes in an effect trace. -/
def countWrites (effs : List Effect) : Nat := effs.countP isWriteEff

/-- Counts the session-blob reads in an effect trace. -/
def countReads (effs : List Effect) : Nat := effs.countP isReadEff

/-- Counts the selector actions in a trace. -/
def countActions (effs : List Effect) : Nat := effs.countP isActionEff

/-! Concrete fixtures used to instantiate the theorems. -/

/-- A test configuration (mirrors the repository's own test fixtures). -/
def cfgA : DeilabsConfig := { user_id := "123", lab_name := "LAB-X" }

/-- A page redirected to the identity provider, before any content loads. -/
def pageLoginRedirect : Page :=
  { url := "https://deilabs.dei.unipd.it/login", html := "" }

/-- A page showing the exit control amid other content. -/
def pageExitCtl : Page :=
  { url := "https://deilabs.dei.unipd.it/laboratory_in_outs",
    html := "<div>Welcome back!</div><button>Exit from lab</button>" }

/-- A page showing the entered-the-lab confirmation. -/
def pageEnteredBanner : Page :=
  { url := "https://deilabs.dei.unipd.it/laboratory_in_outs",
    html := "<div>You have entered the lab DEI/A.</div>" }

/-- A non-expired page on which both the closed banner and the exit control
appear, with every exit selector clickable. -/
def pageClosedInside : Page :=
  { url := "https://deilabs.dei.unipd.it/laboratory_in_outs",
    html := "Laboratories are closed at this time. Exit from lab",
    clickOk := fun _ => true }

/-- A blank loaded page (outside, nothing clickable). -/
def pageBlank : Page :=
  { url := "https://deilabs.dei.unipd.it/laboratory_in_outs", html := "" }

/-- An outside page while labs are open. -/
def pageOutsideOpen : Page :=
  { url := "https://deilabs.dei.unipd.it/laboratory_in_outs",
    html := "<div>You are not in any lab.</div>" }

/-- An outside page while labs are closed. -/
def pageOutsideClosed : Page :=
  { url := "https://deilabs.dei.unipd.it/laboratory_in_outs",
    html := "<div>Laboratories are closed at this time.</div>" }

/-- An inside page on which only the second exit-button candidate is
clickable (the first candidate's click raises). -/
def pageSecondExitUsable : Page :=
  { url := "https://deilabs.dei.unipd.it/laboratory_in_outs",
    html := "<button>Exit from lab</button>",
    clickOk := fun s => s == "input[type=submit][value^=\x27Exit from lab\x27]" }

/-- An outside, open page with no usable lab select at all. -/
def pageNoSelect : Page :=
  { url := "https://deilabs.dei.unipd.it/laboratory_in_outs",
    html := "<div>please choose</div>" }

/-- goto outcomes: first attempt a transient timeout, then success. -/
def gotosTransientThenOk : Nat → NavOutcome :=
  fun n => if n = 1 then NavOutcome.err true "Timeout 8000ms exceeded." else NavOutcome.ok

/-- goto outcomes: first attempt a non-transient protocol error. -/
def gotosFatal : Nat → NavOutcome :=
  fun _ => NavOutcome.err false "Protocol violation: malformed response."

/-- goto outcomes: every attempt fails with a distinct transient error. -/
def gotosAlwaysTransient : Nat → NavOutcome :=
  fun n => NavOutcome.err false ("NS_ERROR_NET_INTERRUPT at attempt " ++ toString n)

/-- A predicate that raises on every evaluation (models a live page whose
`content()` keeps throwing). -/
def predAlwaysRaises : Nat → Option Bool := fun _ => none

/-- A time-indexed page view that never reaches a ready state. -/
def pagesNeverReady : Nat → Page := fun _ => pageNoSelect

/-! Theorems settling the claims. -/

/-- C2: whenever the (lowercased) URL contains a login/identity-provider
marker, `_is_session_expired` returns true for every HTML body — the URL
check is decisive and the HTML content is irrelevant to the result. -/
theorem C2_url_marker_forces_expired (p : Page)
    (h : strContainsSub (lowerStr p.url) "login" = true ∨
         strContainsSub (lowerStr p.url) "shibboleth" = true) :
    _is_session_expired p = true := by
  unfold _is_session_expired
  rcases h with h | h <;> simp [h]

/-- Witness for C2 at a login-redirect page whose HTML body is empty. -/
theorem C2_witness : _is_session_expired pageLoginRedirect = true :=
  C2_url_marker_forces_expired pageLoginRedirect (Or.inl (by decide))

/-- C3: any HTML snapshot containing the "Exit from lab" control label makes
`_is_inside_lab` true, whatever else the snapshot contains; likewise for
the "You have entered the lab" confirmation phrase. -/
theorem C3_inside_markers (p : Page) :
    (strContainsSub p.html "Exit from lab" = true → _is_inside_lab p = true) ∧
    (strContainsSub p.html "You have entered the lab" = true → _is_inside_lab p = true) := by
  unfold _is_inside_lab
  constructor <;> intro h <;> simp [h]

/-- Witness for C3 on an exit-control page and an entered-banner page. -/
theorem C3_witness :
    _is_inside_lab pageExitCtl = true ∧ _is_inside_lab pageEnteredBanner = true :=
  ⟨(C3_inside_markers pageExitCtl).1 (by decide),
   (C3_inside_markers pageEnteredBanner).2 (by decide)⟩

/-- C10: `_infer_success` arbitrates mixed messages in favour of failure: a
failure marker in the lowered text forces `some false` regardless of any
success marker; a success marker with no failure marker gives `some true`;
neither gives `none`. -/
theorem C10_infer_success_arbitration (s : String) :
    (failure_markers.any (fun m => strContainsSub (lowerStr s) m) = true →
      _infer_success s = some false) ∧
    (failure_markers.any (fun m => strContainsSub (lowerStr s) m) = false →
      success_markers.any (fun m => strContainsSub (lowerStr s) m) = true →
      _infer_success s = some true) ∧
    (failure_markers.any (fun m => strContainsSub (lowerStr s) m) = false →
      success_markers.any (fun m => strContainsSub (lowerStr s) m) = false →
      _infer_success s = none) := by
  unfold _infer_success
  exact ⟨fun hf => by simp [hf], fun hf hs => by simp [hf, hs], fun hf hs => by simp [hf, hs]⟩

/-- Witness for C10: a mixed success-and-failure text yields `some false`, a
pure success text `some true`, an unrecognized text `none`. -/
theorem C10_witness :
    _infer_success "Presence logged successfully for lab: X. ERROR: retry later." = some false ∧
    _infer_success "You have exited the lab." = some true ∧
    _infer_success "Hello there." = none :=
  ⟨(C10_infer_success_arbitration
      "Presence logged successfully for lab: X. ERROR: retry later.").1 (by decide),
   (C10_infer_success_arbitration "You have exited the lab.").2.1 (by decide) (by decide),
   (C10_infer_success_arbitration "Hello there.").2.2 (by decide) (by decide)⟩

/-- C4: on a page classified inside (and neither expired nor closed),
`ensure_presence` returns the already-inside message with a success log and
performs no lab selection and no button click — so any call against a page
already reporting inside, a second call included, never clicks again. -/
theorem C4_already_inside_no_click (cfg : DeilabsConfig) (p post : Page)
    (hexp : _is_session_expired p = false) (hcl : _are_labs_closed p = false)
    (hin : _is_inside_lab p = true) :
    (ensure_presence cfg p post).msg = "You are already inside the lab. Nothing to do." ∧
    (ensure_presence cfg p post).success = some true ∧
    countActions (ensure_presence cfg p post).effects = 0 := by
  unfold ensure_presence
  simp only [hexp, hcl, hin]
  cases cfg.debug <;> simp [countActions, isActionEff]

/-- Witness for C4 on a page showing the exit control. -/
theorem C4_witness :
    (ensure_presence cfgA pageExitCtl pageExitCtl).msg =
      "You are already inside the lab. Nothing to do." ∧
    (ensure_presence cfgA pageExitCtl pageExitCtl).success = some true ∧
    countActions (ensure_presence cfgA pageExitCtl pageExitCtl).effects = 0 :=
  C4_already_inside_no_click cfgA pageExitCtl pageExitCtl (by decide) (by decide) (by decide)

/-- C5: on a non-expired page classified not-inside, `leave_lab` performs no
click, reports success, and returns the not-in-any-lab message, which only
differs in the closed-labs phrasing. -/
theorem C5_leave_not_inside_noop (cfg : DeilabsConfig) (p post : Page)
    (hexp : _is_session_expired p = false) (hin : _is_inside_lab p = false) :
    countActions (leave_lab cfg p post).effects = 0 ∧
    (leave_lab cfg p post).success = some true ∧
    (leave_lab cfg p post).msg =
      (if _are_labs_closed p then
        "You are not in any lab and laboratories are currently closed."
       else "You are not in any lab.") := by
  unfold leave_lab
  simp only [hexp, hin]
  by_cases hcl : _are_labs_closed p <;> simp [hcl, countActions, isActionEff]

/-- Witness for C5 on an outside page during the closed window. -/
theorem C5_witness :
    countActions (leave_lab cfgA pageOutsideClosed pageBlank).effects = 0 ∧
    (leave_lab cfgA pageOutsideClosed pageBlank).success = some true ∧
    (leave_lab cfgA pageOutsideClosed pageBlank).msg =
      (if _are_labs_closed pageOutsideClosed then
        "You are not in any lab and laboratories are currently closed."
       else "You are not in any lab.") :=
  C5_leave_not_inside_noop cfgA pageOutsideClosed pageBlank (by decide) (by decide)

/-- C1 counterexample: a non-expired page on which both the closed banner
and the inside signal hold. `leave_lab` consults the inside classifier
first and takes the exit-click path: it performs a click and reports the
exit outcome, never the closed-flavoured no-op outcome — so the closed
classification is not consulted before the inside classification there. -/
theorem C1_counterexample :
    _is_session_expired pageClosedInside = false ∧
    _are_labs_closed pageClosedInside = true ∧
    _is_inside_lab pageClosedInside = true ∧
    (leave_lab cfgA pageClosedInside pageBlank).msg = "You have exited the lab." ∧
    (leave_lab cfgA pageClosedInside pageBlank).msg ≠
      "You are not in any lab and laboratories are currently closed." ∧
    countActions (leave_lab cfgA pageClosedInside pageBlank).effects ≠ 0 := by
  decide

/-- C1 (amended): every expired page yields the session-expired message in
all three operations; in `get_status` and `ensure_presence` the closed
classification is consulted before the inside one (a non-expired closed
page yields the closed outcome regardless of the inside signal); in
`leave_lab`, after the expired check, the inside check comes first and the
closed classifier only refines the not-inside message. -/
theorem C1_classifier_priority (cfg : DeilabsConfig) (p post : Page) :
    (_is_session_expired p = true →
      (get_status cfg p).msg = _session_expired_message cfg ∧
      (ensure_presence cfg p post).msg = _session_expired_message cfg ∧
      (leave_lab cfg p post).msg = _session_expired_message cfg) ∧
    (_is_session_expired p = false → _are_labs_closed p = true →
      (get_status cfg p).msg = "Laboratories are currently closed." ∧
      (ensure_presence cfg p post).msg =
        "Laboratories are currently closed. Presence cannot be logged at this time.") ∧
    (_is_session_expired p = false → _is_inside_lab p = false →
      (leave_lab cfg p post).msg =
        (if _are_labs_closed p then
          "You are not in any lab and laboratories are currently closed."
         else "You are not in any lab.")) := by
  refine ⟨fun hexp => ?_, fun hexp hcl => ?_, fun hexp hin => ?_⟩
  · unfold get_status ensure_presence leave_lab
    simp [hexp]
  · unfold get_status ensure_presence
    simp [hexp, hcl]
  · unfold leave_lab
    simp only [hexp, hin]
    by_cases hcl : _are_labs_closed p <;> simp [hcl]

/-- Witness for C1 (amended): the expired branch at a login redirect, the
closed-before-inside branch of `get_status` at a closed-and-inside page,
and the inside-first branch of `leave_lab` at an outside page. -/
theorem C1_witness :
    (get_status cfgA pageLoginRedirect).msg = _session_expired_message cfgA ∧
    (get_status cfgA pageClosedInside).msg = "Laboratories are currently closed." ∧
    (leave_lab cfgA pageOutsideOpen pageBlank).msg =
      (if _are_labs_closed pageOutsideOpen then
        "You are not in any lab and laboratories are currently closed."
       else "You are not in any lab.") :=
  ⟨((C1_classifier_priority cfgA pageLoginRedirect pageBlank).1 (by decide)).1,
   ((C1_classifier_priority cfgA pageClosedInside pageBlank).2.1 (by decide) (by decide)).1,
   (C1_classifier_priority cfgA pageOutsideOpen pageBlank).2.2 (by decide) (by decide)⟩

/-- First-match-wins for the selector dispatch: if every candidate before
position `n` is unusable and the one at `n` is usable, the dispatch picks
the candidate at `n`. -/
theorem find_first_usable_skip (catalog : List String) (usable : String → Bool) :
    ∀ n sN, (∀ i, i < n → ∀ s, catalog.get? i = some s → usable s = false) →
      catalog.get? n = some sN → usable sN = true →
      find_first_usable catalog usable = some sN := by
  induction catalog with
  | nil => intro n sN _ hget _; simp at hget
  | cons c cs ih =>
    intro n sN hskip hget hu
    cases n with
    | zero =>
      have hc : c = sN := by simpa using hget
      subst hc
      simpa [find_first_usable] using List.find?_cons_of_pos (p := usable) cs hu
    | succ m =>
      have hc : usable c = false := hskip 0 (Nat.succ_pos m) c rfl
      have hrest : find_first_usable cs usable = some sN := by
        refine ih m sN (fun i hi s hgs => ?_) (by simpa using hget) hu
        exact hskip (i + 1) (Nat.succ_lt_succ hi) s (by simpa using hgs)
      have hstep := List.find?_cons_of_neg (a := c) (p := usable) cs (by simp [hc])
      unfold find_first_usable at hrest ⊢
      rw [hstep]
      exact hrest

/-- C7: selector dispatch is first-match-wins over the ordered catalog: a
usable candidate preceded only by unusable ones is the one picked; the
exit and enter logic acts via the picked candidate and logs which one was
used; when every candidate fails, the operation returns the corresponding
could-not-find message together with a debug snapshot (a value, not a
raised exception). -/
theorem C7_selector_first_match :
    (∀ (catalog : List String) (usable : String → Bool) (n : Nat) (sN : String),
      (∀ i, i < n → ∀ s, catalog.get? i = some s → usable s = false) →
      catalog.get? n = some sN → usable sN = true →
      find_first_usable catalog usable = some sN) ∧
    (∀ (cfg : DeilabsConfig) (p post : Page) (sel : String),
      _is_session_expired p = false → _is_inside_lab p = true →
      find_first_usable EXIT_BUTTON_SELECTORS p.clickOk = some sel →
      Effect.clickExit sel ∈ (leave_lab cfg p post).effects ∧
      Effect.log "click_exit" ("Clicked Exit via selector " ++ sel) ∈
        (leave_lab cfg p post).effects) ∧
    (∀ (cfg : DeilabsConfig) (p post : Page),
      _is_session_expired p = false → _is_inside_lab p = true →
      find_first_usable EXIT_BUTTON_SELECTORS p.clickOk = none →
      (leave_lab cfg p post).msg = "Could not find Exit button." ∧
      Effect.saveState "no_exit_button" ∈ (leave_lab cfg p post).effects) ∧
    (∀ (cfg : DeilabsConfig) (p post : Page) (sel : String),
      find_first_usable LAB_SELECTORS (fun s => p.queryOk s && p.selectOk s) = some sel →
      Effect.selectLab sel ∈ (_enter_lab cfg p post).2 ∧
      Effect.log "select_lab"
          ("Selected lab \x27" ++ cfg.lab_name ++ "\x27 via selector " ++ sel) ∈
        (_enter_lab cfg p post).2) ∧
    (∀ (cfg : DeilabsConfig) (p post : Page),
      find_first_usable LAB_SELECTORS (fun s => p.queryOk s && p.selectOk s) = none →
      (_enter_lab cfg p post).1 =
        "Could not find lab select element for \x27" ++ cfg.lab_name ++ "\x27." ∧
      (_enter_lab cfg p post).2 = [Effect.saveState "no_select"]) ∧
    (∀ (cfg : DeilabsConfig) (p post : Page) (sel : String),
      find_first_usable LAB_SELECTORS (fun s => p.queryOk s && p.selectOk s) = some sel →
      find_first_usable ENTER_BUTTON_SELECTORS p.clickOk = none →
      (_enter_lab cfg p post).1 = "Could not click Enter button." ∧
      Effect.saveState "no_enter_button" ∈ (_enter_lab cfg p post).2) := by
  refine ⟨find_first_usable_skip, ?_, ?_, ?_, ?_, ?_⟩
  · intro cfg p post sel hexp hin hfind
    unfold leave_lab
    simp only [hexp, hin, hfind]
    by_cases hpost : _is_inside_lab post <;> simp [hpost]
  · intro cfg p post hexp hin hfind
    unfold leave_lab
    simp [hexp, hin, hfind]
  · intro cfg p post sel hfind
    unfold _enter_lab
    simp only [hfind]
    cases hbtn : find_first_usable ENTER_BUTTON_SELECTORS p.clickOk with
    | none => simp
    | some bsel => by_cases hpost : _is_inside_lab post <;> simp [hpost]
  · intro cfg p post hfind
    unfold _enter_lab
    simp [hfind]
  · intro cfg p post sel hfind hbtn
    unfold _enter_lab
    simp [hfind, hbtn]

/-- Witness for C7: on a page where only the second exit-button candidate is
clickable, the dispatch skips the first candidate and the exit logic clicks
and logs the second one; on a page with nothing clickable, the exit logic
reports the could-not-find outcome with a snapshot. -/
theorem C7_witness :
    find_first_usable EXIT_BUTTON_SELECTORS pageSecondExitUsable.clickOk =
      some "input[type=submit][value^=\x27Exit from lab\x27]" ∧
    Effect.clickExit "input[type=submit][value^=\x27Exit from lab\x27]" ∈
      (leave_lab cfgA pageSecondExitUsable pageBlank).effects ∧
    (leave_lab cfgA pageExitCtl pageBlank).msg = "Could not find Exit button." ∧
    Effect.saveState "no_exit_button" ∈ (leave_lab cfgA pageExitCtl pageBlank).effects :=
  ⟨C7_selector_first_match.1 EXIT_BUTTON_SELECTORS pageSecondExitUsable.clickOk 1
      "input[type=submit][value^=\x27Exit from lab\x27]"
      (by decide) (by decide) (by decide),
   (C7_selector_first_match.2.1 cfgA pageSecondExitUsable pageBlank
      "input[type=submit][value^=\x27Exit from lab\x27]"
      (by decide) (by decide) (by decide)).1,
   (C7_selector_first_match.2.2.1 cfgA pageExitCtl pageBlank
      (by decide) (by decide) (by decide)).1,
   (C7_selector_first_match.2.2.1 cfgA pageExitCtl pageBlank
      (by decide) (by decide) (by decide)).2⟩




/-- The enter flow itself neither reads nor writes the session blob. -/
theorem enter_lab_blob_counts (cfg : DeilabsConfig) (p post : Page) :
    countWrites (_enter_lab cfg p post).2 = 0 ∧ countReads (_enter_lab cfg p post).2 = 0 := by
  unfold _enter_lab
  cases h1 : find_first_usable LAB_SELECTORS (fun s => p.queryOk s && p.selectOk s) with
  | none => simp [countWrites, countReads, isWriteEff, isReadEff]
  | some sel =>
    cases h2 : find_first_usable ENTER_BUTTON_SELECTORS p.clickOk with
    | none => simp [countWrites, countReads, isWriteEff, isReadEff]
    | some bsel =>
      by_cases hpost : _is_inside_lab post <;>
        simp [hpost, countWrites, countReads, isWriteEff, isReadEff]

/-- C8: every automated operation reads the stored session blob exactly once
(when the browsing context is created) and never writes it; the blob is
written exactly once, at `storage_state_path`, by `interactive_login` after
the human confirms login. -/
theorem C8_session_blob_read_only (cfg : DeilabsConfig) (p post : Page) :
    countWrites (get_status cfg p).effects = 0 ∧
    countReads (get_status cfg p).effects = 1 ∧
    countWrites (ensure_presence cfg p post).effects = 0 ∧
    countReads (ensure_presence cfg p post).effects = 1 ∧
    countWrites (leave_lab cfg p post).effects = 0 ∧
    countReads (leave_lab cfg p post).effects = 1 ∧
    (∀ effs, interactive_login cfg true = Except.ok effs →
      countWrites effs = 1 ∧ Effect.writeSession (storage_state_path cfg) ∈ effs) := by
  have hent := enter_lab_blob_counts cfg p post
  refine ⟨?_, ?_, ?_, ?_, ?_, ?_, ?_⟩
  · unfold get_status
    by_cases hexp : _is_session_expired p <;> by_cases hcl : _are_labs_closed p <;>
      simp [hexp, hcl, countWrites, isWriteEff]
  · unfold get_status
    by_cases hexp : _is_session_expired p <;> by_cases hcl : _are_labs_closed p <;>
      simp [hexp, hcl, countReads, isReadEff]
  · unfold ensure_presence
    by_cases hexp : _is_session_expired p <;> by_cases hcl : _are_labs_closed p <;>
      by_cases hin : _is_inside_lab p <;> cases hd : cfg.debug <;>
      simp [hexp, hcl, hin, hd, countWrites, isWriteEff, List.countP_append] <;>
      simpa [countWrites] using hent.1
  · unfold ensure_presence
    by_cases hexp : _is_session_expired p <;> by_cases hcl : _are_labs_closed p <;>
      by_cases hin : _is_inside_lab p <;> cases hd : cfg.debug <;>
      simp [hexp, hcl, hin, hd, countReads, isReadEff, List.countP_append] <;>
      simpa [countReads] using hent.2
  · unfold leave_lab
    by_cases hexp : _is_session_expired p
    · simp [hexp, countWrites, isWriteEff]
    · by_cases hin : _is_inside_lab p
      · cases hfind : find_first_usable EXIT_BUTTON_SELECTORS p.clickOk with
        | none => simp [hexp, hin, hfind, countWrites, isWriteEff]
        | some sel =>
          by_cases hpost : _is_inside_lab post <;>
            simp [hexp, hin, hfind, hpost, countWrites, isWriteEff]
      · by_cases hcl : _are_labs_closed p <;> simp [hexp, hin, hcl, countWrites, isWriteEff]
  · unfold leave_lab
    by_cases hexp : _is_session_expired p
    · simp [hexp, countReads, isReadEff]
    · by_cases hin : _is_inside_lab p
      · cases hfind : find_first_usable EXIT_BUTTON_SELECTORS p.clickOk with
        | none => simp [hexp, hin, hfind, countReads, isReadEff]
        | some sel =>
          by_cases hpost : _is_inside_lab post <;>
            simp [hexp, hin, hfind, hpost, countReads, isReadEff]
      · by_cases hcl : _are_labs_closed p <;> simp [hexp, hin, hcl, countReads, isReadEff]
  · intro effs heq
    unfold interactive_login at heq
    simp at heq
    subst heq
    simp [countWrites, isWriteEff]

/-- Witness for C8 at a concrete configuration and pages. -/
theorem C8_witness :
    countWrites (get_status cfgA pageOutsideOpen).effects = 0 ∧
    countReads (get_status cfgA pageOutsideOpen).effects = 1 ∧
    countWrites (ensure_presence cfgA pageOutsideOpen pageBlank).effects = 0 ∧
    countReads (ensure_presence cfgA pageOutsideOpen pageBlank).effects = 1 ∧
    countWrites (leave_lab cfgA pageOutsideOpen pageBlank).effects = 0 ∧
    countReads (leave_lab cfgA pageOutsideOpen pageBlank).effects = 1 ∧
    (∀ effs, interactive_login cfgA true = Except.ok effs →
      countWrites effs = 1 ∧ Effect.writeSession (storage_state_path cfgA) ∈ effs) :=
  C8_session_blob_read_only cfgA pageOutsideOpen pageBlank

/-- C6: the navigation retry loop retries transient errors and aborts
otherwise. A transient first failure followed by a successful second
attempt succeeds after exactly 2 attempts with exactly one backoff sleep of
`delay * 1`; a non-transient first failure is raised after exactly 1
attempt with no sleep; with the default 2 extra attempts, three transient
failures exhaust the retries and raise the last error after sleeping
`delay * 1` then `delay * 2`. -/
theorem C6_navigation_retry (retries delay : Nat) (gotos : Nat → NavOutcome) :
    (∀ tmo msg, gotos 1 = NavOutcome.err tmo msg →
      _is_retryable_navigation_error tmo msg = true → gotos 2 = NavOutcome.ok →
      1 ≤ retries →
      (_open_lab_page retries delay gotos).result = Except.ok () ∧
      (_open_lab_page retries delay gotos).attemptsUsed = 2 ∧
      (_open_lab_page retries delay gotos).sleeps = [delay * 1]) ∧
    (∀ tmo msg, gotos 1 = NavOutcome.err tmo msg →
      _is_retryable_navigation_error tmo msg = false →
      (_open_lab_page retries delay gotos).result = Except.error (tmo, msg) ∧
      (_open_lab_page retries delay gotos).attemptsUsed = 1 ∧
      (_open_lab_page retries delay gotos).sleeps = []) ∧
    (∀ t1 m1 t2 m2 t3 m3,
      gotos 1 = NavOutcome.err t1 m1 → _is_retryable_navigation_error t1 m1 = true →
      gotos 2 = NavOutcome.err t2 m2 → _is_retryable_navigation_error t2 m2 = true →
      gotos 3 = NavOutcome.err t3 m3 → _is_retryable_navigation_error t3 m3 = true →
      (_open_lab_page 2 delay gotos).result = Except.error (t3, m3) ∧
      (_open_lab_page 2 delay gotos).attemptsUsed = 3 ∧
      (_open_lab_page 2 delay gotos).sleeps = [delay * 1, delay * 2]) := by
  refine ⟨?_, ?_, ?_⟩
  · intro tmo msg hg1 hr hg2 hret
    unfold _open_lab_page
    rw [open_lab_page_from, hg1]
    simp only [hr, true_and]
    rw [dif_pos (by omega : 1 < retries + 1)]
    rw [open_lab_page_from, hg2]
    simp
  · intro tmo msg hg1 hr
    unfold _open_lab_page
    rw [open_lab_page_from, hg1]
    simp [hr]
  · intro t1 m1 t2 m2 t3 m3 hg1 hr1 hg2 hr2 hg3 hr3
    unfold _open_lab_page
    rw [open_lab_page_from, hg1]
    simp only [hr1, true_and]
    rw [dif_pos (by omega : 1 < 2 + 1)]
    rw [open_lab_page_from, hg2]
    simp only [hr2, true_and]
    rw [dif_pos (by omega : 2 < 2 + 1)]
    rw [open_lab_page_from, hg3]
    simp only [hr3, true_and]
    rw [dif_neg (by omega : ¬ 3 < 2 + 1)]
    simp

/-- Witness for C6: a concrete transient-then-ok goto sequence, a concrete
fatal goto sequence, and a concrete always-transient sequence. -/
theorem C6_witness :
    ((_open_lab_page 2 700 gotosTransientThenOk).result = Except.ok () ∧
     (_open_lab_page 2 700 gotosTransientThenOk).attemptsUsed = 2 ∧
     (_open_lab_page 2 700 gotosTransientThenOk).sleeps = [700 * 1]) ∧
    ((_open_lab_page 2 700 gotosFatal).result =
        Except.error (false, "Protocol violation: malformed response.") ∧
     (_open_lab_page 2 700 gotosFatal).attemptsUsed = 1 ∧
     (_open_lab_page 2 700 gotosFatal).sleeps = []) ∧
    ((_open_lab_page 2 700 gotosAlwaysTransient).result =
        Except.error (false, "NS_ERROR_NET_INTERRUPT at attempt 3") ∧
     (_open_lab_page 2 700 gotosAlwaysTransient).attemptsUsed = 3 ∧
     (_open_lab_page 2 700 gotosAlwaysTransient).sleeps = [700 * 1, 700 * 2]) :=
  ⟨(C6_navigation_retry 2 700 gotosTransientThenOk).1 true "Timeout 8000ms exceeded."
      (by decide) (by decide) (by decide) (by omega),
   (C6_navigation_retry 2 700 gotosFatal).2.1 false "Protocol violation: malformed response."
      (by decide) (by decide),
   (C6_navigation_retry 2 700 gotosAlwaysTransient).2.2
      false "NS_ERROR_NET_INTERRUPT at attempt 1"
      false "NS_ERROR_NET_INTERRUPT at attempt 2"
      false "NS_ERROR_NET_INTERRUPT at attempt 3"
      (by decide) (by decide) (by decide) (by decide) (by decide) (by decide)⟩

/-- When the deadline has already passed, `_wait_until` performs the final
check immediately: no sleeps, result is the predicate's value with an
exception treated as false. -/
theorem wait_until_stop (pollMs : Nat) (hp : 0 < pollMs) (pred : Nat → Option Bool)
    (deadline t : Nat) (hnd : ¬ t < deadline) :
    _wait_until pollMs hp pred deadline t = ((pred t).getD false, 0) := by
  rw [_wait_until, dif_neg hnd]

/-- Behaviour of the `_wait_until` polling loop: every poll happens strictly
before the deadline; a true result was observed at some polled instant; a
false result means the loop ran past the deadline and the final check
(exceptions treated as false) did not hold. -/
theorem wait_until_spec (pollMs : Nat) (hp : 0 < pollMs) (pred : Nat → Option Bool) :
    ∀ deadline t,
      (∀ k, k < (_wait_until pollMs hp pred deadline t).2 → t + k * pollMs < deadline) ∧
      ((_wait_until pollMs hp pred deadline t).1 = true →
        ∃ k, k ≤ (_wait_until pollMs hp pred deadline t).2 ∧
          pred (t + k * pollMs) = some true) ∧
      ((_wait_until pollMs hp pred deadline t).1 = false →
        deadline ≤ t + (_wait_until pollMs hp pred deadline t).2 * pollMs ∧
        (pred (t + (_wait_until pollMs hp pred deadline t).2 * pollMs)).getD false = false) := by
  have base : ∀ deadline t, ¬ t < deadline →
      (∀ k, k < (_wait_until pollMs hp pred deadline t).2 → t + k * pollMs < deadline) ∧
      ((_wait_until pollMs hp pred deadline t).1 = true →
        ∃ k, k ≤ (_wait_until pollMs hp pred deadline t).2 ∧
          pred (t + k * pollMs) = some true) ∧
      ((_wait_until pollMs hp pred deadline t).1 = false →
        deadline ≤ t + (_wait_until pollMs hp pred deadline t).2 * pollMs ∧
        (pred (t + (_wait_until pollMs hp pred deadline t).2 * pollMs)).getD false = false) := by
    intro deadline t hnd
    rw [wait_until_stop pollMs hp pred deadline t hnd]
    refine ⟨fun k hk => by simp at hk, fun hres => ?_, fun hres => ?_⟩
    · simp only at hres
      refine ⟨0, Nat.le_refl 0, ?_⟩
      simp only [Nat.zero_mul, Nat.add_zero]
      cases hpt : pred t with
      | none => rw [hpt] at hres; simp at hres
      | some b => rw [hpt] at hres; simp at hres; simp [hres]
    · simp only at hres
      simp only [Nat.zero_mul, Nat.add_zero]
      exact ⟨by omega, hres⟩
  have main : ∀ fuel deadline t, deadline - t ≤ fuel →
      (∀ k, k < (_wait_until pollMs hp pred deadline t).2 → t + k * pollMs < deadline) ∧
      ((_wait_until pollMs hp pred deadline t).1 = true →
        ∃ k, k ≤ (_wait_until pollMs hp pred deadline t).2 ∧
          pred (t + k * pollMs) = some true) ∧
      ((_wait_until pollMs hp pred deadline t).1 = false →
        deadline ≤ t + (_wait_until pollMs hp pred deadline t).2 * pollMs ∧
        (pred (t + (_wait_until pollMs hp pred deadline t).2 * pollMs)).getD false = false) := by
    intro fuel
    induction fuel with
    | zero =>
      intro deadline t hle
      exact base deadline t (by omega)
    | succ f ih =>
      intro deadline t hle
      by_cases hd : t < deadline
      · rw [_wait_until, dif_pos hd]
        by_cases hpt : (pred t).getD false
        · rw [if_pos hpt]
          refine ⟨fun k hk => by simp at hk, fun _ => ?_, fun hres => by simp at hres⟩
          refine ⟨0, by simp, ?_⟩
          simp only [Nat.zero_mul, Nat.add_zero]
          cases hptv : pred t with
          | none => rw [hptv] at hpt; simp at hpt
          | some b => rw [hptv] at hpt; simp at hpt; simp [hpt]
        · rw [if_neg hpt]
          obtain ⟨ih1, ih2, ih3⟩ := ih deadline (t + pollMs) (by omega)
          refine ⟨?_, ?_, ?_⟩
          · intro k hk
            simp only at hk ⊢
            cases k with
            | zero => simpa using hd
            | succ j =>
              have hj := ih1 j (by omega)
              have harith : t + (j + 1) * pollMs = t + pollMs + j * pollMs := by ring
              rw [harith]
              exact hj
          · intro hres
            simp only at hres
            obtain ⟨k, hk, hpk⟩ := ih2 hres
            refine ⟨k + 1, by simpa using Nat.succ_le_succ hk, ?_⟩
            have harith : t + (k + 1) * pollMs = t + pollMs + k * pollMs := by ring
            rw [harith]
            exact hpk
          · intro hres
            simp only at hres ⊢
            obtain ⟨h1, h2⟩ := ih3 hres
            have harith :
                t + ((_wait_until pollMs hp pred deadline (t + pollMs)).2 + 1) * pollMs =
                t + pollMs + (_wait_until pollMs hp pred deadline (t + pollMs)).2 * pollMs := by
              ring
            rw [harith]
            exact ⟨h1, h2⟩
      · exact base deadline t hd
  intro deadline t
  exact main (deadline - t) deadline t (Nat.le_refl _)

/-- C9: the polling loop terminates within its configured timeout — every
poll sleep happens strictly before the deadline and the total slept time
stays below the timeout plus one poll interval — and it returns the
predicate's final value, treating a predicate exception as false; in
particular `_wait_for_page_ready` returns (rather than blocking) with a
false result when no ready state is ever observed before the timeout. -/
theorem C9_bounded_polling (pollMs : Nat) (hp : 0 < pollMs) (pred : Nat → Option Bool)
    (deadline t : Nat) :
    (∀ k, k < (_wait_until pollMs hp pred deadline t).2 → t + k * pollMs < deadline) ∧
    ((_wait_until pollMs hp pred deadline t).2 * pollMs < deadline - t + pollMs) ∧
    ((_wait_until pollMs hp pred deadline t).1 = true →
      ∃ k, k ≤ (_wait_until pollMs hp pred deadline t).2 ∧
        pred (t + k * pollMs) = some true) ∧
    ((_wait_until pollMs hp pred deadline t).1 = false →
      deadline ≤ t + (_wait_until pollMs hp pred deadline t).2 * pollMs ∧
      (pred (t + (_wait_until pollMs hp pred deadline t).2 * pollMs)).getD false = false) ∧
    (∀ (pages : Nat → Page) (pageWaitMs : Nat),
      (∀ u, ready_pred pages u = some false) →
      (_wait_for_page_ready pollMs hp pageWaitMs pages).1 = false) := by
  obtain ⟨h1, h2, h3⟩ := wait_until_spec pollMs hp pred deadline t
  refine ⟨h1, ?_, h2, h3, ?_⟩
  · cases hn : (_wait_until pollMs hp pred deadline t).2 with
    | zero => simp only [Nat.zero_mul]; omega
    | succ m =>
      have hm := h1 m (by omega)
      have harith : (m + 1) * pollMs = m * pollMs + pollMs := by ring
      rw [harith]
      generalize hgm : m * pollMs = a at hm ⊢
      omega
  · intro pages pageWaitMs hnever
    by_contra hne
    have htrue : (_wait_for_page_ready pollMs hp pageWaitMs pages).1 = true := by
      cases hv : (_wait_for_page_ready pollMs hp pageWaitMs pages).1
      · exact absurd hv hne
      · rfl
    obtain ⟨hr1, hr2, hr3⟩ := wait_until_spec pollMs hp (ready_pred pages) pageWaitMs 0
    obtain ⟨k, _, hk⟩ := hr2 htrue
    rw [hnever (0 + k * pollMs)] at hk
    exact Option.noConfusion hk (fun hfb => Bool.noConfusion hfb)

/-- Witness for C9 with the default 250 ms poll interval, an 8 s deadline,
and a predicate that raises on every evaluation. -/
theorem C9_witness :
    (∀ k, k < (_wait_until 250 (by decide) predAlwaysRaises 8000 0).2 →
      0 + k * 250 < 8000) ∧
    ((_wait_until 250 (by decide) predAlwaysRaises 8000 0).2 * 250 < 8000 - 0 + 250) ∧
    ((_wait_until 250 (by decide) predAlwaysRaises 8000 0).1 = true →
      ∃ k, k ≤ (_wait_until 250 (by decide) predAlwaysRaises 8000 0).2 ∧
        predAlwaysRaises (0 + k * 250) = some true) ∧
    ((_wait_until 250 (by decide) predAlwaysRaises 8000 0).1 = false →
      8000 ≤ 0 + (_wait_until 250 (by decide) predAlwaysRaises 8000 0).2 * 250 ∧
      (predAlwaysRaises
        (0 + (_wait_until 250 (by decide) predAlwaysRaises 8000 0).2 * 250)).getD false =
        false) ∧
    (∀ (pages : Nat → Page) (pageWaitMs : Nat),
      (∀ u, ready_pred pages u = some false) →
      (_wait_for_page_ready 250 (by decide) pageWaitMs pages).1 = false) :=
  C9_bounded_polling 250 (by decide) predAlwaysRaises 8000 0
